import Mathlib

/-!
# Verification of the Microgrids.py operation & economics core

Shallow embedding of `src/microgrids/components.py`, `src/microgrids/operation.py`
and `src/microgrids/economics.py` (the dispatch / operation-simulation /
economic-evaluation core), with theorems checking the natural-language
specification of the package.

Modelling conventions:
* Python/numpy floats are modelled by exact rationals `ℚ`.  The IEEE special
  values that the code deliberately produces (`np.inf` from the guarded
  `x/y if y != 0.0 else np.inf` rate computations, and the values of
  unguarded numpy divisions) are modelled by an extended type `XQ`
  (finite rational / +inf / -inf / nan).
* Plain-Python float division by zero raises `ZeroDivisionError`; this and the
  `OverflowError` of `int(np.ceil(...))` on a non-finite float are modelled by
  `Except PyError`.
* Replacement discount factors `1/(1+r)**y` use a *fractional* float exponent
  in the source, whose exact value is irrational in general; that single
  computation is therefore modelled over `ℝ` (`Real.rpow`), and only the
  `replacement` and `total` cost fields depend on it.  Everything else is
  executable over `ℚ`.
* The string-valued labels of the source (`currency`, `fuel_unit`, the names
  keying the `nondispatchables` dict) never influence any computation of the
  core and are omitted; the dict is modelled as a list of sources.
-/

/-- Python exceptions raised by the modelled code paths. -/
inductive PyError where
  /-- `ZeroDivisionError`: plain-Python float division by zero. -/
  | zeroDivisionError : PyError
  /-- `OverflowError` (or `ZeroDivisionError`, depending on whether the
  operand is a numpy or a plain float): raised by
  `int(np.ceil(lifetime_proj / lifetime))` when `lifetime` is zero
  (numpy division yields `inf`, which `int()` refuses). -/
  | overflowError : PyError
deriving DecidableEq, Repr

/-- Extended rational: a Python/numpy float that is either an exact finite
value or one of the IEEE special values `inf`, `-inf`, `nan`. -/
inductive XQ where
  | fin (q : ℚ) : XQ
  | inf : XQ
  | ninf : XQ
  | nan : XQ
deriving DecidableEq, Repr

namespace XQ

/-- Python comparison `x > 0.0` on an extended value
(`nan > 0.0` is `False`). -/
def gtZero : XQ → Bool
  | fin q => decide (0 < q)
  | inf => true
  | ninf => false
  | nan => false

/-- Division `a / x` of a finite float `a` by an extended value `x`, in the
cases where the result is finite: `a / inf = a / (-inf) = 0`.
In the code this is only evaluated under the guard `x > 0.0`
(so `x` is a positive finite value or `+inf`); the remaining cases are
given the junk value `0`. -/
def divQ (a : ℚ) : XQ → ℚ
  | fin q => a / q
  | _ => 0

end XQ

/-- numpy float64 division `a / b` of exact finite operands: finite quotient
when `b ≠ 0`, otherwise the IEEE result `±inf`/`nan` by the sign of `a`
(numpy emits a warning but does not raise). -/
def npDiv (a b : ℚ) : XQ :=
  if b = 0 then (if 0 < a then .inf else if a < 0 then .ninf else .nan)
  else .fin (a / b)

/-! ## `components.py`: the data model -/

/-- `Project` (components.py): microgrid project information. -/
structure Project where
  lifetime : ℕ := 25
  discount_rate : ℚ := 1/20
  timestep : ℚ := 1
deriving DecidableEq, Repr

/-- `DispatchableGenerator` (components.py). -/
structure DispatchableGenerator where
  power_rated : ℚ
  fuel_intercept : ℚ
  fuel_slope : ℚ
  fuel_price : ℚ
  investment_price : ℚ
  om_price_hours : ℚ
  lifetime_hours : ℚ
  load_ratio_min : ℚ := 0
  replacement_price_ratio : ℚ := 1
  salvage_price_ratio : ℚ := 1
deriving DecidableEq, Repr

/-- `DispatchableGenerator.lifetime(oper_hours)`:
`lifetime_hours / oper_hours`.  Both operands are plain Python floats
(`oper_hours` is the accumulator `op_st.gen_hours`), so division by zero
raises `ZeroDivisionError`. -/
def DispatchableGenerator.lifetime (g : DispatchableGenerator) (oper_hours : ℚ) :
    Except PyError ℚ :=
  if oper_hours = 0 then .error .zeroDivisionError
  else .ok (g.lifetime_hours / oper_hours)

/-- `Battery` (components.py). -/
structure Battery where
  energy_rated : ℚ
  investment_price : ℚ
  om_price : ℚ
  lifetime_calendar : ℚ
  lifetime_cycles : ℚ
  charge_rate_max : ℚ := 1
  discharge_rate_max : ℚ := 1
  loss_factor : ℚ := 1/20
  SoC_min : ℚ := 0
  SoC_ini : ℚ := 0
  replacement_price_ratio : ℚ := 1
  salvage_price_ratio : ℚ := 1
deriving DecidableEq, Repr

/-- `Battery.lifetime(cycles)` (components.py lines 130-137):
```
if cycles > 0.0:
    lifetime_cycling = self.lifetime_cycles / cycles
    return min(self.lifetime_calendar, lifetime_cycling)
else:
    return self.lifetime_calendar
```
`cycles` is `op_st.storage_cycles`, which is `np.inf` when the rated energy
is zero, hence the extended argument type.  The result is always finite. -/
def Battery.lifetime (b : Battery) (cycles : XQ) : ℚ :=
  if cycles.gtZero then
    min b.lifetime_calendar (XQ.divQ b.lifetime_cycles cycles)
  else
    b.lifetime_calendar

/-- `NonDispatchableSource` (components.py): the core only uses the
`production()` time series, the rated power and the price/lifetime fields,
identical in shape across variants; we record exactly those. -/
structure NonDispatchableSource where
  power_rated : ℚ
  investment_price : ℚ
  om_price : ℚ
  lifetime : ℚ
  replacement_price_ratio : ℚ := 1
  salvage_price_ratio : ℚ := 1
  production : List ℚ
deriving DecidableEq, Repr

/-- `Photovoltaic` (components.py). -/
structure Photovoltaic where
  power_rated : ℚ
  irradiance : List ℚ
  investment_price : ℚ
  om_price : ℚ
  lifetime : ℚ
  derating_factor : ℚ := 9/10
  replacement_price_ratio : ℚ := 1
  salvage_price_ratio : ℚ := 1
deriving DecidableEq, Repr

/-- `Photovoltaic.production`: `derating_factor * power_rated * irradiance`. -/
def Photovoltaic.production (pv : Photovoltaic) : List ℚ :=
  pv.irradiance.map (fun g => pv.derating_factor * pv.power_rated * g)

/-- View a `Photovoltaic` through the common `NonDispatchableSource` interface. -/
def Photovoltaic.toSource (pv : Photovoltaic) : NonDispatchableSource where
  power_rated := pv.power_rated
  investment_price := pv.investment_price
  om_price := pv.om_price
  lifetime := pv.lifetime
  replacement_price_ratio := pv.replacement_price_ratio
  salvage_price_ratio := pv.salvage_price_ratio
  production := pv.production

/-- `Microgrid` (components.py).  The `nondispatchables` dict is modelled as a
list of sources (the name keys never influence the simulation). -/
structure Microgrid where
  project : Project
  load : List ℚ
  generator : DispatchableGenerator
  storage : Battery
  nondispatchables : List NonDispatchableSource
deriving DecidableEq, Repr

/-! ## `operation.py`: dispatch -/

/-- `dispatch(Pnl_req, Psto_cmax, Psto_dmax, Pgen_max)`
(operation.py lines 92-157), returning `(Pgen, Psto, Pspill, Pshed)`. -/
def dispatch (Pnl_req Psto_cmax Psto_dmax Pgen_max : ℚ) : ℚ × ℚ × ℚ × ℚ :=
  if 0 ≤ Pnl_req then
    -- Pnl_req >= 0: load excess; storage discharging (Psto positive)
    if Psto_dmax ≤ Pnl_req then
      -- Psto = Psto_dmax (max(storage))
      if Pgen_max ≤ Pnl_req - Psto_dmax then
        (Pgen_max, Psto_dmax, 0, Pnl_req - Psto_dmax - Pgen_max)
      else
        (Pnl_req - Psto_dmax, Psto_dmax, 0, 0)
    else
      (0, Pnl_req, 0, 0)
  else
    -- Pnl_req < 0: VRE excess; generator off, storage charging (Psto negative)
    if Psto_cmax ≤ Pnl_req then
      (0, Pnl_req, 0, 0)
    else
      (0, Psto_cmax, Psto_cmax - Pnl_req, 0)

/-! ## `operation.py`: operation simulation -/

/-- `OperationStats` (operation.py lines 16-66).  The four ratio fields that
the source guards with `... if denom != 0.0 else np.inf` are extended values
(`XQ`); all other fields are plain finite floats. -/
structure OperationStats where
  served_energy : ℚ := 0
  shed_energy : ℚ := 0
  shed_max : ℚ := 0
  shed_hours : ℚ := 0
  shed_duration_max : ℚ := 0
  shed_rate : XQ := .fin 0
  gen_energy : ℚ := 0
  gen_hours : ℚ := 0
  gen_fuel : ℚ := 0
  storage_cycles : XQ := .fin 0
  storage_char_energy : ℚ := 0
  storage_dis_energy : ℚ := 0
  storage_loss_energy : ℚ := 0
  spilled_energy : ℚ := 0
  spilled_max : ℚ := 0
  spilled_rate : XQ := .fin 0
  renew_potential_energy : ℚ := 0
  renew_energy : ℚ := 0
  renew_rate : XQ := .fin 0
deriving DecidableEq, Repr

/-- The mutable state of the simulation loop of `sim_operation`
(operation.py lines 184-251): the storage energy `Esto`, the accumulating
fields of `op_st`, and the current shedding-event duration. -/
structure OpState where
  Esto : ℚ
  shed_energy : ℚ
  shed_max : ℚ
  shed_hours : ℚ
  shed_duration_max : ℚ
  gen_energy : ℚ
  gen_hours : ℚ
  gen_fuel : ℚ
  storage_char_energy : ℚ
  storage_dis_energy : ℚ
  spilled_energy : ℚ
  spilled_max : ℚ
  shed_duration : ℚ
deriving DecidableEq, Repr

/-- Renewable potential at instant `k`: the pointwise sum of the production
series of all non-dispatchable sources
(`renew_potential = sum(renew_productions)`, operation.py lines 168-169).
The source relies on numpy broadcasting, which requires all series to have
the same length as the load. -/
def renewPotential (mg : Microgrid) (k : ℕ) : ℚ :=
  (mg.nondispatchables.map (fun nd => nd.production.getD k 0)).sum

/-- Desired net load at instant `k`:
`Pnl_request = mg.load - renew_potential` (operation.py line 172). -/
def PnlRequest (mg : Microgrid) (k : ℕ) : ℚ :=
  mg.load.getD k 0 - renewPotential mg k

/-- The sequence of net load requests fed to the simulation loop,
one per instant `k = 0 .. K-1` with `K = len(mg.load)`. -/
def requests (mg : Microgrid) : List ℚ :=
  (List.range mg.load.length).map (PnlRequest mg)

/-- Per-instant storage power limits and dispatch call
(operation.py lines 201-210): the energy-based bounds
`Psto_emin`, `Psto_emax` computed from the current `Esto`,
tightened by the rating-based bounds `Psto_pmin`, `Psto_pmax`
(which the source hoists out of the loop as constants),
then `dispatch` at the requested net load. -/
def dispatchAt (mg : Microgrid) (Esto : ℚ) (Pnl_req : ℚ) : ℚ × ℚ × ℚ × ℚ :=
  let dt := mg.project.timestep
  let sto_loss := mg.storage.loss_factor
  let Psto_pmax := mg.storage.discharge_rate_max * mg.storage.energy_rated
  let Psto_pmin := -(mg.storage.charge_rate_max * mg.storage.energy_rated)
  let Esto_max := mg.storage.energy_rated
  let Esto_min := mg.storage.SoC_min * mg.storage.energy_rated
  let Psto_emin := -((Esto_max - Esto) / ((1 - sto_loss) * dt))
  let Psto_emax := (Esto - Esto_min) / ((1 + sto_loss) * dt)
  let Psto_dmax := min Psto_emax Psto_pmax
  let Psto_cmax := max Psto_emin Psto_pmin
  dispatch Pnl_req Psto_cmax Psto_dmax mg.generator.power_rated

/-- One iteration of the simulation loop (operation.py lines 197-251):
dispatch, storage dynamics
`Esto = Esto - (Psto + sto_loss*abs(Psto))*dt`, and the per-instant
statistics accumulation. -/
def simStep (mg : Microgrid) (Pnl_req : ℚ) (s : OpState) : OpState :=
  let dt := mg.project.timestep
  let sto_loss := mg.storage.loss_factor
  let d := dispatchAt mg s.Esto Pnl_req
  let Pgen := d.1
  let Psto := d.2.1
  let Pspill := d.2.2.1
  let Pshed := d.2.2.2
  let shed_duration := if 0 < Pshed then s.shed_duration + dt else 0
  { Esto := s.Esto - (Psto + sto_loss * |Psto|) * dt
    shed_energy := s.shed_energy + Pshed * dt
    shed_max := max s.shed_max Pshed
    shed_hours := if 0 < Pshed then s.shed_hours + dt else s.shed_hours
    shed_duration_max :=
      if 0 < Pshed then max s.shed_duration_max shed_duration
      else s.shed_duration_max
    gen_energy := if 0 < Pgen then s.gen_energy + Pgen * dt else s.gen_energy
    gen_hours := if 0 < Pgen then s.gen_hours + dt else s.gen_hours
    gen_fuel :=
      if 0 < Pgen then
        s.gen_fuel + (mg.generator.fuel_intercept * mg.generator.power_rated
          + mg.generator.fuel_slope * Pgen) * dt
      else s.gen_fuel
    storage_char_energy :=
      if 0 < Psto then s.storage_char_energy else s.storage_char_energy - Psto * dt
    storage_dis_energy :=
      if 0 < Psto then s.storage_dis_energy + Psto * dt else s.storage_dis_energy
    spilled_energy := s.spilled_energy + Pspill * dt
    spilled_max := max s.spilled_max Pspill
    shed_duration := shed_duration }

/-- Initial loop state (operation.py lines 184-190): storage at
`SoC_ini * energy_rated`, all statistics counters at zero. -/
def initState (mg : Microgrid) : OpState where
  Esto := mg.storage.SoC_ini * mg.storage.energy_rated
  shed_energy := 0
  shed_max := 0
  shed_hours := 0
  shed_duration_max := 0
  gen_energy := 0
  gen_hours := 0
  gen_fuel := 0
  storage_char_energy := 0
  storage_dis_energy := 0
  spilled_energy := 0
  spilled_max := 0
  shed_duration := 0

/-- The simulation loop of `sim_operation` as a fold over the net load
requests. -/
def simLoop (mg : Microgrid) : OpState :=
  (requests mg).foldl (fun s p => simStep mg p s) (initState mg)

/-- The post-loop aggregation of `sim_operation`
(operation.py lines 256-274), producing the `OperationStats` from the final
loop state. -/
def opStatsOf (mg : Microgrid) (s : OpState) : OperationStats :=
  let dt := mg.project.timestep
  let Esto_ini := mg.storage.SoC_ini * mg.storage.energy_rated
  let load_energy := mg.load.sum * dt
  let served_energy := load_energy - s.shed_energy
  let storage_throughput := s.storage_char_energy + s.storage_dis_energy
  -- `np.sum(renew_potential)`: note the source does NOT multiply by `dt` here.
  let renew_potential_energy := ((List.range mg.load.length).map (renewPotential mg)).sum
  { served_energy := served_energy
    shed_energy := s.shed_energy
    shed_max := s.shed_max
    shed_hours := s.shed_hours
    shed_duration_max := s.shed_duration_max
    shed_rate := if load_energy ≠ 0 then .fin (s.shed_energy / load_energy) else .inf
    gen_energy := s.gen_energy
    gen_hours := s.gen_hours
    gen_fuel := s.gen_fuel
    storage_cycles :=
      if mg.storage.energy_rated ≠ 0 then
        .fin (storage_throughput / (2 * mg.storage.energy_rated))
      else .inf
    storage_char_energy := s.storage_char_energy
    storage_dis_energy := s.storage_dis_energy
    storage_loss_energy :=
      s.storage_char_energy - s.storage_dis_energy - (s.Esto - Esto_ini)
    spilled_energy := s.spilled_energy
    spilled_max := s.spilled_max
    spilled_rate :=
      if renew_potential_energy ≠ 0 then
        .fin (s.spilled_energy / renew_potential_energy)
      else .inf
    renew_potential_energy := renew_potential_energy
    renew_energy := renew_potential_energy - s.spilled_energy
    renew_rate :=
      if served_energy ≠ 0 then .fin (1 - s.gen_energy / served_energy) else .inf }

/-- `sim_operation(mg)` without a recorder (operation.py lines 160-274). -/
def sim_operation (mg : Microgrid) : OperationStats :=
  opStatsOf mg (simLoop mg)

/-- `TrajRecorder` (operation.py lines 69-89) after
`recorder.init(Prep=K, Pgen=K, Psto=K, Esto=K+1, Pspill=K, Pshed=K)`:
one zero-initialised array per recorded variable (modelled as lists).
`rec(k, name=v)` writes `v` at index `k` (`List.set`); a Python negative
index `-1` (which occurs for `K = 0` in the post-loop `rec(K-1, ...)`)
addresses the last element, which coincides with the Nat-subtraction index
`K - 1 = 0` of the length-one `Esto` array. -/
structure TrajRecorder where
  Prep : List ℚ
  Pgen : List ℚ
  Psto : List ℚ
  Esto : List ℚ
  Pspill : List ℚ
  Pshed : List ℚ
deriving DecidableEq, Repr

/-- `recorder.init(Prep=K, Pgen=K, Psto=K, Esto=K+1, Pspill=K, Pshed=K)`
(operation.py line 193). -/
def TrajRecorder.init (K : ℕ) : TrajRecorder where
  Prep := List.replicate K 0
  Pgen := List.replicate K 0
  Psto := List.replicate K 0
  Esto := List.replicate (K + 1) 0
  Pspill := List.replicate K 0
  Pshed := List.replicate K 0

/-- One loop iteration with recording (operation.py lines 212-216): the
dispatch results and the pre-update `Esto` are recorded at index `k`, and the
state evolves exactly as in `simStep` (the source computes `dispatch` once
and uses the same pure values for both purposes). -/
def simStepRec (mg : Microgrid) (sr : OpState × TrajRecorder) (k : ℕ) :
    OpState × TrajRecorder :=
  let s := sr.1
  let r := sr.2
  let Pnl_req := PnlRequest mg k
  let d := dispatchAt mg s.Esto Pnl_req
  let r' : TrajRecorder :=
    { Prep := r.Prep.set k (renewPotential mg k)
      Pgen := r.Pgen.set k d.1
      Psto := r.Psto.set k d.2.1
      Esto := r.Esto.set k s.Esto
      Pspill := r.Pspill.set k d.2.2.1
      Pshed := r.Pshed.set k d.2.2.2 }
  (simStep mg Pnl_req s, r')

/-- `sim_operation(mg, recorder)` with a `TrajRecorder` attached
(operation.py lines 160-274).  After the loop the source executes
`recorder.rec(K-1, Esto=Esto)  # Esto at last instant`,
writing the final storage energy at index `K - 1`. -/
def sim_operation_rec (mg : Microgrid) : OperationStats × TrajRecorder :=
  let K := mg.load.length
  let sr := (List.range K).foldl (simStepRec mg) (initState mg, TrajRecorder.init K)
  let r' : TrajRecorder := { sr.2 with Esto := sr.2.Esto.set (K - 1) sr.1.Esto }
  (opStatsOf mg sr.1, r')


/-- The storage energy trajectory of a simulation run: the value of `Esto`
entering each of the K loop iterations (instants 0..K-1), followed by the
final storage energy (instant K) — K+1 samples bracketing K intervals. -/
def EstoTrajectory (mg : Microgrid) : List ℚ :=
  ((requests mg).scanl (fun s p => simStep mg p s) (initState mg)).map OpState.Esto
/-! ## `economics.py`: the economic evaluator -/

/-- Project discount factors `1/(1 + discount_rate)**i` for `i = 1..lifetime`
(economics.py lines 53-55). -/
def discountFactors (proj : Project) : List ℚ :=
  (List.range proj.lifetime).map (fun i => 1 / (1 + proj.discount_rate) ^ (i + 1))

/-- `replacements_number = int(np.ceil(mg_project.lifetime/lifetime)) - 1`
(economics.py line 59), for a non-zero `lifetime` (the zero case raises and
is handled in `CostFactors.from_prices`). -/
def replacementsNumber (proj : Project) (lifetime : ℚ) : ℤ :=
  ⌈(proj.lifetime : ℚ) / lifetime⌉ - 1

/-- `replacement_years = [i*lifetime for i in range(1, replacements_number+1)]`
(economics.py line 61); empty when `replacements_number ≤ 0`,
like the Python `range`. -/
def replacementYears (proj : Project) (lifetime : ℚ) : List ℚ :=
  (List.range (replacementsNumber proj lifetime).toNat).map
    (fun i => ((i : ℚ) + 1) * lifetime)

/-- `replacement_factors = [1/(1 + discount_rate)**i for i in replacement_years]`
(economics.py line 63).  The exponent is a *fractional* year, so the exact
value is a real power. -/
noncomputable def replacementFactors (proj : Project) (lifetime : ℚ) : List ℝ :=
  (replacementYears proj lifetime).map
    (fun y => 1 / (1 + (proj.discount_rate : ℝ)) ^ ((y : ℝ)))

/-- `remaining_life = lifetime*(1+replacements_number) - mg_project.lifetime`
(economics.py line 66). -/
def remainingLife (proj : Project) (lifetime : ℚ) : ℚ :=
  lifetime * (1 + (replacementsNumber proj lifetime : ℚ)) - (proj.lifetime : ℚ)

/-- `CostFactors` (economics.py lines 17-31).  All fields that the source
computes by rational operations are exact rationals; `replacement` (and hence
`total`) involves the fractional-exponent discounting and lives in `ℝ`. -/
structure CostFactors where
  total : ℝ := 0
  investment : ℚ := 0
  replacement : ℝ := 0
  om : ℚ := 0
  fuel : ℚ := 0
  salvage : ℚ := 0

/-- Component-wise sum of two `CostFactors` (`CostFactors.__add__`,
economics.py lines 88-100). -/
noncomputable def CostFactors.add (a b : CostFactors) : CostFactors where
  total := a.total + b.total
  investment := a.investment + b.investment
  replacement := a.replacement + b.replacement
  om := a.om + b.om
  fuel := a.fuel + b.fuel
  salvage := a.salvage + b.salvage

/-- `CostFactors.from_prices` (economics.py lines 33-86).
`int(np.ceil(mg_project.lifetime/lifetime))` raises when `lifetime` is zero
(`ZeroDivisionError` on a plain float, `OverflowError` through
`int(np.ceil(inf))` on a numpy float); the model reports this case up front.
`discount_factors[mg_project.lifetime-1]` is modelled with `List.getD`,
faithful for `mg_project.lifetime ≥ 1` (the source raises `IndexError` on an
empty project). -/
noncomputable def CostFactors.from_prices (proj : Project)
    (quantity lifetime investment_price replacement_price salvage_price
      om_price fuel_consumption fuel_price : ℚ) :
    Except PyError CostFactors :=
  if lifetime = 0 then .error .overflowError
  else
    let sum_discounts := (discountFactors proj).sum
    let replacements_number := replacementsNumber proj lifetime
    let salvage_price_effective :=
      salvage_price * remainingLife proj lifetime / lifetime
    let investment_cost := investment_price * quantity
    let om_cost := om_price * quantity * sum_discounts
    let replacement_cost : ℝ :=
      if replacements_number = 0 then 0
      else ((replacement_price * quantity : ℚ) : ℝ)
        * (replacementFactors proj lifetime).sum
    let salvage_cost := -salvage_price_effective * quantity
      * (discountFactors proj).getD (proj.lifetime - 1) 0
    let fuel_cost := fuel_price * fuel_consumption * sum_discounts
    let total_cost : ℝ := (investment_cost : ℝ) + replacement_cost
      + (om_cost : ℝ) + (fuel_cost : ℝ) + (salvage_cost : ℝ)
    .ok { total := total_cost
          investment := investment_cost
          replacement := replacement_cost
          om := om_cost
          fuel := fuel_cost
          salvage := salvage_cost }

/-- Extended real: the value of an unguarded numpy float division, used for
the levelized cost of electricity. -/
inductive XR where
  | fin (x : ℝ) : XR
  | inf : XR
  | ninf : XR
  | nan : XR

/-- numpy float64 division over exact real operands:
`a / 0` is `±inf`/`nan` by the sign of `a` (warning, not an exception). -/
noncomputable def npDivR (a b : ℝ) : XR :=
  if b = 0 then (if 0 < a then .inf else if a < 0 then .ninf else .nan)
  else .fin (a / b)

/-- `MicrogridCosts` (economics.py lines 104-122); the per-name dict of
non-dispatchable costs is modelled as a list, in source order. -/
structure MicrogridCosts where
  lcoe : XR
  npc : ℝ
  system : CostFactors
  generator : CostFactors
  storage : CostFactors
  nondispatchables : List CostFactors

/-- `sim_economics(mg, oper_stats)` (economics.py lines 158-217).
Python exceptions propagate as `Except.error`; the final
`lcoe = annualized_cost / oper_stats.served_energy` is an *unguarded* numpy
division (`served_energy` is a `np.float64`), modelled by `npDivR`.
`crf = 1/sum(discount_factors)` is only reached with `proj.lifetime ≥ 1`
in the claims below (an empty project would raise `ZeroDivisionError` in
Python; rational division gives `crf = 0`). -/
noncomputable def sim_economics (mg : Microgrid) (oper_stats : OperationStats) :
    Except PyError MicrogridCosts :=
  match mg.generator.lifetime oper_stats.gen_hours with
  | .error e => .error e
  | .ok gen_lifetime =>
    match CostFactors.from_prices mg.project mg.generator.power_rated gen_lifetime
        mg.generator.investment_price
        (mg.generator.investment_price * mg.generator.replacement_price_ratio)
        (mg.generator.investment_price * mg.generator.salvage_price_ratio)
        (mg.generator.om_price_hours * oper_stats.gen_hours)
        oper_stats.gen_fuel mg.generator.fuel_price with
    | .error e => .error e
    | .ok gen_costs =>
      match CostFactors.from_prices mg.project mg.storage.energy_rated
          (mg.storage.lifetime oper_stats.storage_cycles)
          mg.storage.investment_price
          (mg.storage.investment_price * mg.storage.replacement_price_ratio)
          (mg.storage.investment_price * mg.storage.salvage_price_ratio)
          mg.storage.om_price 0 0 with
      | .error e => .error e
      | .ok sto_costs =>
        match mg.nondispatchables.mapM (fun nd =>
            CostFactors.from_prices mg.project nd.power_rated nd.lifetime
              nd.investment_price
              (nd.investment_price * nd.replacement_price_ratio)
              (nd.investment_price * nd.salvage_price_ratio)
              nd.om_price 0 0) with
        | .error e => .error e
        | .ok nd_costs =>
          let crf := 1 / (discountFactors mg.project).sum
          let system_costs :=
            (gen_costs.add sto_costs).add (nd_costs.foldl CostFactors.add {})
          let npc := system_costs.total
          let annualized_cost := npc * (crf : ℝ)
          let lcoe := npDivR annualized_cost (oper_stats.served_energy : ℝ)
          .ok { lcoe := lcoe
                npc := npc
                system := system_costs
                generator := gen_costs
                storage := sto_costs
                nondispatchables := nd_costs }



/-! ## Concrete instances used in witnesses and counterexamples -/

/-- A degenerate microgrid: a single zero-load instant, a zero-rated
generator and a zero-capacity storage, no renewable source. -/
def mgZ : Microgrid where
  project := { lifetime := 1, discount_rate := 0, timestep := 1 }
  load := [0]
  generator :=
    { power_rated := 0, fuel_intercept := 0, fuel_slope := 0, fuel_price := 0
      investment_price := 0, om_price_hours := 0, lifetime_hours := 1
      load_ratio_min := 0, replacement_price_ratio := 1, salvage_price_ratio := 1 }
  storage :=
    { energy_rated := 0, investment_price := 0, om_price := 0
      lifetime_calendar := 10, lifetime_cycles := 100, charge_rate_max := 1
      discharge_rate_max := 1, loss_factor := 0, SoC_min := 0, SoC_ini := 0
      replacement_price_ratio := 1, salvage_price_ratio := 1 }
  nondispatchables := []

/-- A microgrid with one load instant and a zero-capacity storage with a
10-year calendar lifetime (for the effective-lifetime behaviour at zero
rated energy). -/
def mgC6 : Microgrid where
  project := { lifetime := 25, discount_rate := 1/20, timestep := 1 }
  load := [1]
  generator :=
    { power_rated := 0, fuel_intercept := 0, fuel_slope := 0, fuel_price := 0
      investment_price := 0, om_price_hours := 0, lifetime_hours := 10000
      load_ratio_min := 0, replacement_price_ratio := 1, salvage_price_ratio := 1 }
  storage :=
    { energy_rated := 0, investment_price := 0, om_price := 0
      lifetime_calendar := 10, lifetime_cycles := 3000, charge_rate_max := 1
      discharge_rate_max := 1, loss_factor := 1/20, SoC_min := 0, SoC_ini := 0
      replacement_price_ratio := 1, salvage_price_ratio := 1 }
  nondispatchables := []

/-- A one-instant microgrid with a unit storage starting full
(`SoC_ini = 1`, `SoC_min = 1/2`, no losses), for the recorder trajectory:
the single step discharges the storage from 1 to 1/2. -/
def mgC7 : Microgrid where
  project := { lifetime := 25, discount_rate := 1/20, timestep := 1 }
  load := [1]
  generator :=
    { power_rated := 0, fuel_intercept := 0, fuel_slope := 0, fuel_price := 0
      investment_price := 0, om_price_hours := 0, lifetime_hours := 1
      load_ratio_min := 0, replacement_price_ratio := 1, salvage_price_ratio := 1 }
  storage :=
    { energy_rated := 1, investment_price := 0, om_price := 0
      lifetime_calendar := 10, lifetime_cycles := 3000, charge_rate_max := 1
      discharge_rate_max := 1, loss_factor := 0, SoC_min := 1/2, SoC_ini := 1
      replacement_price_ratio := 1, salvage_price_ratio := 1 }
  nondispatchables := []

/-- A microgrid with a zero-rated (zero-quantity) generator and a non-zero
load, for the economic evaluation of a component with zero quantity. -/
def mgC4 : Microgrid where
  project := { lifetime := 25, discount_rate := 1/20, timestep := 1 }
  load := [1]
  generator :=
    { power_rated := 0, fuel_intercept := 0, fuel_slope := 1/4, fuel_price := 1
      investment_price := 100, om_price_hours := 1/50, lifetime_hours := 15000
      load_ratio_min := 0, replacement_price_ratio := 1, salvage_price_ratio := 1 }
  storage :=
    { energy_rated := 2, investment_price := 350, om_price := 10
      lifetime_calendar := 15, lifetime_cycles := 3000, charge_rate_max := 1
      discharge_rate_max := 1, loss_factor := 1/20, SoC_min := 0, SoC_ini := 1/2
      replacement_price_ratio := 1, salvage_price_ratio := 1 }
  nondispatchables := []

/-- A one-year project whose generator ran for one hour: `sim_economics`
completes on it, with unit net present cost. -/
def mgC3e : Microgrid where
  project := { lifetime := 1, discount_rate := 0, timestep := 1 }
  load := []
  generator :=
    { power_rated := 1, fuel_intercept := 0, fuel_slope := 0, fuel_price := 0
      investment_price := 1, om_price_hours := 0, lifetime_hours := 1
      load_ratio_min := 0, replacement_price_ratio := 1, salvage_price_ratio := 1 }
  storage :=
    { energy_rated := 0, investment_price := 0, om_price := 0
      lifetime_calendar := 1, lifetime_cycles := 1, charge_rate_max := 1
      discharge_rate_max := 1, loss_factor := 0, SoC_min := 0, SoC_ini := 0
      replacement_price_ratio := 1, salvage_price_ratio := 1 }
  nondispatchables := []

/-- Operation statistics with zero served energy but one generator operating
hour (as fed to `sim_economics` for the levelized-cost behaviour). -/
def stC3 : OperationStats := { served_energy := 0, gen_hours := 1 }

/-- The `MicrogridCosts` that `sim_economics mgC3e stC3` returns. -/
noncomputable def mcC3 : MicrogridCosts where
  lcoe := XR.inf
  npc := 1
  system := { total := 1, investment := 1 }
  generator := { total := 1, investment := 1 }
  storage := {}
  nondispatchables := []


/-! ## Theorems -/

section DispatchLemmas

/-- The storage power returned by `dispatch` respects the supplied storage
bounds, as soon as those bounds are on the correct side of zero
(no generator hypothesis is needed). -/
theorem dispatch_Psto_le_dmax (Pnl_req Psto_cmax Psto_dmax Pgen_max : ℚ)
    (hc : Psto_cmax ≤ 0) (hd : 0 ≤ Psto_dmax) :
    (dispatch Pnl_req Psto_cmax Psto_dmax Pgen_max).2.1 ≤ Psto_dmax := by
  unfold dispatch
  split_ifs with h1 h2 h3 h4 <;> dsimp only <;> linarith

/-- Lower storage bound of `dispatch`. -/
theorem dispatch_cmax_le_Psto (Pnl_req Psto_cmax Psto_dmax Pgen_max : ℚ)
    (hc : Psto_cmax ≤ 0) (hd : 0 ≤ Psto_dmax) :
    Psto_cmax ≤ (dispatch Pnl_req Psto_cmax Psto_dmax Pgen_max).2.1 := by
  unfold dispatch
  split_ifs with h1 h2 h3 h4 <;> dsimp only <;> linarith

/-- With a zero generator ceiling, `dispatch` never runs the generator. -/
theorem dispatch_Pgen_zero (Pnl_req Psto_cmax Psto_dmax : ℚ) :
    (dispatch Pnl_req Psto_cmax Psto_dmax 0).1 = 0 := by
  unfold dispatch
  split_ifs with h1 h2 h3 h4 <;> dsimp only <;> linarith

end DispatchLemmas

/-- C1, stated over the claim's hypotheses: generator within `[0, Pgen_max]`,
storage within `[Psto_cmax, Psto_dmax]`, spill and shed non-negative, exact
power balance, and spill/shed mutually exclusive. -/
theorem dispatch_contract (Pnl_req Psto_cmax Psto_dmax Pgen_max : ℚ)
    (hc : Psto_cmax ≤ 0) (hd : 0 ≤ Psto_dmax) (hg : 0 ≤ Pgen_max) :
    0 ≤ (dispatch Pnl_req Psto_cmax Psto_dmax Pgen_max).1 ∧
    (dispatch Pnl_req Psto_cmax Psto_dmax Pgen_max).1 ≤ Pgen_max ∧
    Psto_cmax ≤ (dispatch Pnl_req Psto_cmax Psto_dmax Pgen_max).2.1 ∧
    (dispatch Pnl_req Psto_cmax Psto_dmax Pgen_max).2.1 ≤ Psto_dmax ∧
    0 ≤ (dispatch Pnl_req Psto_cmax Psto_dmax Pgen_max).2.2.1 ∧
    0 ≤ (dispatch Pnl_req Psto_cmax Psto_dmax Pgen_max).2.2.2 ∧
    Pnl_req = (dispatch Pnl_req Psto_cmax Psto_dmax Pgen_max).1
      + (dispatch Pnl_req Psto_cmax Psto_dmax Pgen_max).2.1
      + (dispatch Pnl_req Psto_cmax Psto_dmax Pgen_max).2.2.2
      - (dispatch Pnl_req Psto_cmax Psto_dmax Pgen_max).2.2.1 ∧
    ((dispatch Pnl_req Psto_cmax Psto_dmax Pgen_max).2.2.1 = 0
      ∨ (dispatch Pnl_req Psto_cmax Psto_dmax Pgen_max).2.2.2 = 0) := by
  unfold dispatch
  split_ifs with h1 h2 h3 h4 <;> dsimp only <;>
    refine ⟨by linarith, by linarith, by linarith, by linarith,
      by linarith, by linarith, by ring, ?_⟩
  · exact Or.inl rfl
  · exact Or.inl rfl
  · exact Or.inl rfl
  · exact Or.inl rfl
  · exact Or.inr rfl

/-- Witness for `dispatch_contract` at a concrete input. -/
theorem dispatch_contract_witness :
    ((-3 : ℚ) ≤ 0 ∧ (0:ℚ) ≤ 2 ∧ (0:ℚ) ≤ 5) ∧
    (0 ≤ (dispatch 4 (-3) 2 5).1 ∧
     (dispatch 4 (-3) 2 5).1 ≤ 5 ∧
     (-3 : ℚ) ≤ (dispatch 4 (-3) 2 5).2.1 ∧
     (dispatch 4 (-3) 2 5).2.1 ≤ 2 ∧
     0 ≤ (dispatch 4 (-3) 2 5).2.2.1 ∧
     0 ≤ (dispatch 4 (-3) 2 5).2.2.2 ∧
     (4 : ℚ) = (dispatch 4 (-3) 2 5).1 + (dispatch 4 (-3) 2 5).2.1
       + (dispatch 4 (-3) 2 5).2.2.2 - (dispatch 4 (-3) 2 5).2.2.1 ∧
     ((dispatch 4 (-3) 2 5).2.2.1 = 0 ∨ (dispatch 4 (-3) 2 5).2.2.2 = 0)) :=
  ⟨by norm_num, dispatch_contract 4 (-3) 2 5 (by norm_num) (by norm_num) (by norm_num)⟩

/-- C10: under the claim's hypotheses, a strictly positive generator power
implies the storage is discharging at its maximum allowed rate
(the generator never runs while the storage charges). -/
theorem dispatch_gen_implies_storage_max (Pnl_req Psto_cmax Psto_dmax Pgen_max : ℚ)
    (hc : Psto_cmax ≤ 0) (hd : 0 ≤ Psto_dmax) (hg : 0 ≤ Pgen_max)
    (hpos : 0 < (dispatch Pnl_req Psto_cmax Psto_dmax Pgen_max).1) :
    (dispatch Pnl_req Psto_cmax Psto_dmax Pgen_max).2.1 = Psto_dmax := by
  unfold dispatch at hpos ⊢
  split_ifs at hpos ⊢ with h1 h2 h3 h4 <;>
    first
      | rfl
      | norm_num at hpos

/-- Witness for `dispatch_gen_implies_storage_max` at a concrete input. -/
theorem dispatch_gen_implies_storage_max_witness :
    ((-3 : ℚ) ≤ 0 ∧ (0:ℚ) ≤ 2 ∧ (0:ℚ) ≤ 5 ∧ 0 < (dispatch 4 (-3) 2 5).1) ∧
    (dispatch 4 (-3) 2 5).2.1 = 2 :=
  ⟨by norm_num [dispatch], dispatch_gen_implies_storage_max 4 (-3) 2 5
    (by norm_num) (by norm_num) (by norm_num) (by norm_num [dispatch])⟩

section RecorderEquivalence

/-- The recorded fold and the plain fold compute the same operation state:
recording only writes into the recorder arrays. -/
theorem foldl_simStepRec_fst (mg : Microgrid) :
    ∀ (l : List ℕ) (s : OpState) (r : TrajRecorder),
      (l.foldl (simStepRec mg) (s, r)).1
        = l.foldl (fun s k => simStep mg (PnlRequest mg k) s) s := by
  intro l
  induction l with
  | nil => intro s r; rfl
  | cons a t ih =>
    intro s r
    rw [List.foldl_cons, List.foldl_cons]
    exact ih (simStep mg (PnlRequest mg a) s) _

end RecorderEquivalence

/-- C8: the `OperationStats` returned by `sim_operation` with a
`TrajRecorder` attached is identical, field for field, to the one returned
without a recorder. -/
theorem sim_operation_rec_stats_eq (mg : Microgrid) :
    (sim_operation_rec mg).1 = sim_operation mg := by
  show opStatsOf mg ((List.range mg.load.length).foldl (simStepRec mg)
      (initState mg, TrajRecorder.init mg.load.length)).1
    = opStatsOf mg (simLoop mg)
  rw [foldl_simStepRec_fst]
  unfold simLoop requests
  rw [List.foldl_map]

/-- A predicate preserved by each step of a fold holds along the whole
`scanl` trajectory. -/
theorem scanl_forall {α β : Type} (f : β → α → β) (P : β → Prop)
    (hf : ∀ s a, P s → P (f s a)) :
    ∀ (l : List α) (s : β), P s → ∀ x ∈ List.scanl f s l, P x := by
  intro l
  induction l with
  | nil =>
    intro s hs x hx
    rw [List.scanl_nil, List.mem_singleton] at hx
    exact hx ▸ hs
  | cons a t ih =>
    intro s hs x hx
    rw [List.scanl_cons] at hx
    rcases List.mem_cons.mp hx with h | h
    · exact h ▸ hs
    · exact ih (f s a) (hf s a hs) x h

/-- `dispatchAt`, with its `let`-bound limits spelled out. -/
theorem dispatchAt_eq (mg : Microgrid) (Esto Pnl_req : ℚ) :
    dispatchAt mg Esto Pnl_req
      = dispatch Pnl_req
          (max (-((mg.storage.energy_rated - Esto)
              / ((1 - mg.storage.loss_factor) * mg.project.timestep)))
            (-(mg.storage.charge_rate_max * mg.storage.energy_rated)))
          (min ((Esto - mg.storage.SoC_min * mg.storage.energy_rated)
              / ((1 + mg.storage.loss_factor) * mg.project.timestep))
            (mg.storage.discharge_rate_max * mg.storage.energy_rated))
          mg.generator.power_rated := rfl

/-- The storage dynamics of one simulation step. -/
theorem simStep_Esto (mg : Microgrid) (Pnl_req : ℚ) (s : OpState) :
    (simStep mg Pnl_req s).Esto
      = s.Esto - ((dispatchAt mg s.Esto Pnl_req).2.1
          + mg.storage.loss_factor * |(dispatchAt mg s.Esto Pnl_req).2.1|)
          * mg.project.timestep := rfl

/-- One simulation step keeps the storage energy within
`[SoC_min * energy_rated, energy_rated]`, for valid storage parameters. -/
theorem simStep_Esto_bounds (mg : Microgrid)
    (hsm1 : mg.storage.SoC_min ≤ 1)
    (hl0 : 0 ≤ mg.storage.loss_factor) (hl1 : mg.storage.loss_factor < 1)
    (hE : 0 ≤ mg.storage.energy_rated)
    (hcr : 0 ≤ mg.storage.charge_rate_max) (hdr : 0 ≤ mg.storage.discharge_rate_max)
    (hdt : 0 < mg.project.timestep)
    (p : ℚ) (s : OpState)
    (h1 : mg.storage.SoC_min * mg.storage.energy_rated ≤ s.Esto)
    (h2 : s.Esto ≤ mg.storage.energy_rated) :
    mg.storage.SoC_min * mg.storage.energy_rated ≤ (simStep mg p s).Esto ∧
      (simStep mg p s).Esto ≤ mg.storage.energy_rated := by
  set E := mg.storage.energy_rated with hE_def
  set α := mg.storage.loss_factor with hα_def
  set dt := mg.project.timestep with hdt_def
  set Emin := mg.storage.SoC_min * mg.storage.energy_rated with hEmin_def
  have hD1 : 0 < (1 + α) * dt := by positivity
  have hD2 : 0 < (1 - α) * dt := by
    have : 0 < 1 - α := by linarith
    positivity
  set emax := (s.Esto - Emin) / ((1 + α) * dt) with hemax_def
  set emin := -((E - s.Esto) / ((1 - α) * dt)) with hemin_def
  set dmax := min emax (mg.storage.discharge_rate_max * E) with hdmax_def
  set cmax := max emin (-(mg.storage.charge_rate_max * E)) with hcmax_def
  have hdmax0 : 0 ≤ dmax := by
    apply le_min
    · exact div_nonneg (by linarith) hD1.le
    · exact mul_nonneg hdr hE
  have hcmax0 : cmax ≤ 0 := by
    apply max_le
    · rw [hemin_def, neg_nonpos]
      exact div_nonneg (by linarith) hD2.le
    · rw [neg_nonpos]
      exact mul_nonneg hcr hE
  have hPd : (dispatchAt mg s.Esto p).2.1 ≤ dmax := by
    rw [dispatchAt_eq]
    exact dispatch_Psto_le_dmax p cmax dmax mg.generator.power_rated hcmax0 hdmax0
  have hPc : cmax ≤ (dispatchAt mg s.Esto p).2.1 := by
    rw [dispatchAt_eq]
    exact dispatch_cmax_le_Psto p cmax dmax mg.generator.power_rated hcmax0 hdmax0
  set Psto := (dispatchAt mg s.Esto p).2.1 with hPsto_def
  rw [simStep_Esto, ← hPsto_def, ← hα_def, ← hdt_def]
  rcases le_or_lt 0 Psto with hP | hP
  · -- discharging (or idle): `|Psto| = Psto`
    rw [abs_of_nonneg hP]
    have hup : Psto * ((1 + α) * dt) ≤ s.Esto - Emin := by
      have h3 : Psto ≤ emax := le_trans hPd (min_le_left _ _)
      rw [hemax_def] at h3
      exact (le_div_iff hD1).mp h3
    have hnn : 0 ≤ Psto * ((1 + α) * dt) := mul_nonneg hP hD1.le
    have hring : (Psto + α * Psto) * dt = Psto * ((1 + α) * dt) := by ring
    constructor
    · linarith [hring]
    · linarith [hring]
  · -- charging: `|Psto| = -Psto`
    rw [abs_of_neg hP]
    have hup : -Psto * ((1 - α) * dt) ≤ E - s.Esto := by
      have h3 : emin ≤ Psto := le_trans (le_max_left _ _) hPc
      rw [hemin_def] at h3
      have h4 : -Psto ≤ (E - s.Esto) / ((1 - α) * dt) := by linarith
      exact (le_div_iff hD2).mp h4
    have hnn : 0 ≤ -Psto * ((1 - α) * dt) := mul_nonneg (by linarith) hD2.le
    have hring : (Psto + α * -Psto) * dt = -(-Psto * ((1 - α) * dt)) := by ring
    constructor
    · linarith [hring]
    · linarith [hring]

/-- C2: for valid storage parameters and a positive timestep, the storage
energy maintained by `sim_operation` stays within
`[SoC_min * energy_rated, energy_rated]` at every instant `k = 0..K`,
whatever the load and production time series. -/
theorem sim_operation_storage_invariant (mg : Microgrid)
    (hsm : 0 ≤ mg.storage.SoC_min) (hmi : mg.storage.SoC_min ≤ mg.storage.SoC_ini)
    (hi1 : mg.storage.SoC_ini ≤ 1)
    (hl0 : 0 ≤ mg.storage.loss_factor) (hl1 : mg.storage.loss_factor < 1)
    (hE : 0 ≤ mg.storage.energy_rated)
    (hcr : 0 ≤ mg.storage.charge_rate_max) (hdr : 0 ≤ mg.storage.discharge_rate_max)
    (hdt : 0 < mg.project.timestep) :
    ∀ e ∈ EstoTrajectory mg,
      mg.storage.SoC_min * mg.storage.energy_rated ≤ e
        ∧ e ≤ mg.storage.energy_rated := by
  intro e he
  unfold EstoTrajectory at he
  obtain ⟨x, hx, rfl⟩ := List.mem_map.mp he
  have hinit : mg.storage.SoC_min * mg.storage.energy_rated ≤ (initState mg).Esto
      ∧ (initState mg).Esto ≤ mg.storage.energy_rated := by
    constructor
    · exact mul_le_mul_of_nonneg_right hmi hE
    · calc mg.storage.SoC_ini * mg.storage.energy_rated
          ≤ 1 * mg.storage.energy_rated := mul_le_mul_of_nonneg_right hi1 hE
        _ = mg.storage.energy_rated := one_mul _
  exact scanl_forall (fun s p => simStep mg p s)
    (fun s => mg.storage.SoC_min * mg.storage.energy_rated ≤ s.Esto
      ∧ s.Esto ≤ mg.storage.energy_rated)
    (fun s p hp => simStep_Esto_bounds mg (le_trans hmi hi1) hl0 hl1 hE hcr hdr hdt
      p s hp.1 hp.2)
    (requests mg) (initState mg) hinit x hx


/-! ### `CostFactors.from_prices` (C5, C9) -/

/-- Unfolding of `CostFactors.from_prices` for a non-zero lifetime. -/
theorem from_prices_ok (proj : Project)
    (quantity lifetime investment_price replacement_price salvage_price
      om_price fuel_consumption fuel_price : ℚ) (h : lifetime ≠ 0) :
    CostFactors.from_prices proj quantity lifetime investment_price
      replacement_price salvage_price om_price fuel_consumption fuel_price
    = .ok { total := ((investment_price * quantity : ℚ) : ℝ)
              + (if replacementsNumber proj lifetime = 0 then 0
                 else ((replacement_price * quantity : ℚ) : ℝ)
                   * (replacementFactors proj lifetime).sum)
              + ((om_price * quantity * (discountFactors proj).sum : ℚ) : ℝ)
              + ((fuel_price * fuel_consumption * (discountFactors proj).sum : ℚ) : ℝ)
              + ((-(salvage_price * remainingLife proj lifetime / lifetime) * quantity
                 * (discountFactors proj).getD (proj.lifetime - 1) 0 : ℚ) : ℝ)
            investment := investment_price * quantity
            replacement := if replacementsNumber proj lifetime = 0 then 0
              else ((replacement_price * quantity : ℚ) : ℝ)
                * (replacementFactors proj lifetime).sum
            om := om_price * quantity * (discountFactors proj).sum
            fuel := fuel_price * fuel_consumption * (discountFactors proj).sum
            salvage := -(salvage_price * remainingLife proj lifetime / lifetime)
              * quantity * (discountFactors proj).getD (proj.lifetime - 1) 0 } := by
  unfold CostFactors.from_prices
  rw [if_neg h]

/-- Value of the `discount_factors[n]` access. -/
theorem discountFactors_getD (proj : Project) (n : ℕ) :
    (discountFactors proj).getD n 0
      = if n < proj.lifetime then 1 / (1 + proj.discount_rate) ^ (n + 1) else 0 := by
  unfold discountFactors
  rcases Nat.lt_or_ge n proj.lifetime with h | h
  · rw [if_pos h]
    rw [List.getD_eq_getElem?_getD, List.getElem?_map, List.getElem?_range h]
    rfl
  · rw [if_neg (Nat.not_lt.mpr h)]
    rw [List.getD_eq_getElem?_getD, List.getElem?_map,
      List.getElem?_eq_none (by simpa using h)]
    rfl

/-- Discount factors are non-negative for a non-negative discount rate. -/
theorem discountFactors_getD_nonneg (proj : Project) (n : ℕ)
    (hr : 0 ≤ proj.discount_rate) : 0 ≤ (discountFactors proj).getD n 0 := by
  rw [discountFactors_getD]
  split_ifs
  · positivity
  · exact le_refl 0

/-- The remaining life at project end is non-negative for a positive
component lifetime. -/
theorem remainingLife_nonneg (proj : Project) (lt : ℚ) (h : 0 < lt) :
    0 ≤ remainingLife proj lt := by
  unfold remainingLife replacementsNumber
  have h1 : ((proj.lifetime : ℚ) / lt) ≤ (⌈(proj.lifetime : ℚ) / lt⌉ : ℚ) :=
    Int.le_ceil _
  have h2 : (proj.lifetime : ℚ) ≤ lt * (⌈(proj.lifetime : ℚ) / lt⌉ : ℚ) := by
    rw [← div_le_iff₀' h]
    exact h1
  have h3 : lt * (1 + ((⌈(proj.lifetime : ℚ) / lt⌉ : ℤ) - 1 : ℤ) : ℚ)
      = lt * (⌈(proj.lifetime : ℚ) / lt⌉ : ℚ) := by
    push_cast
    ring
  push_cast at h3 ⊢
  linarith [h3]

/-- C5 (amended): in `CostFactors.from_prices`, the remaining useful life at
project end is `component_lifetime * (1 + replacements_number) -
project_lifetime`, and the salvage entry is minus the **salvage** price
(not the replacement price) times quantity times
`remaining_life / component_lifetime`, discounted by the final project
year's discount factor; the salvage field is `≤ 0` for non-negative salvage
price and quantity, positive lifetime and non-negative discount rate. -/
theorem from_prices_salvage (proj : Project)
    (q lt ip rp sp op fc fp : ℚ) (hlt : 0 < lt)
    (hsp : 0 ≤ sp) (hq : 0 ≤ q) (hr : 0 ≤ proj.discount_rate) :
    remainingLife proj lt
        = lt * (1 + (replacementsNumber proj lt : ℚ)) - (proj.lifetime : ℚ)
    ∧ (CostFactors.from_prices proj q lt ip rp sp op fc fp).map CostFactors.salvage
        = .ok (-(sp * remainingLife proj lt / lt) * q
            * (discountFactors proj).getD (proj.lifetime - 1) 0)
    ∧ -(sp * remainingLife proj lt / lt) * q
        * (discountFactors proj).getD (proj.lifetime - 1) 0 ≤ 0 := by
  refine ⟨rfl, ?_, ?_⟩
  · rw [from_prices_ok proj q lt ip rp sp op fc fp (ne_of_gt hlt)]
    rfl
  · have hrem : 0 ≤ remainingLife proj lt := remainingLife_nonneg proj lt hlt
    have hdf : 0 ≤ (discountFactors proj).getD (proj.lifetime - 1) 0 :=
      discountFactors_getD_nonneg proj _ hr
    have hs : 0 ≤ sp * remainingLife proj lt / lt :=
      div_nonneg (mul_nonneg hsp hrem) hlt.le
    have hprod : 0 ≤ sp * remainingLife proj lt / lt * q
        * (discountFactors proj).getD (proj.lifetime - 1) 0 :=
      mul_nonneg (mul_nonneg hs hq) hdf
    linarith [hprod]

/-- Witness for `from_prices_salvage` at a concrete input. -/
theorem from_prices_salvage_witness :
    ((0:ℚ) < 2 ∧ (0:ℚ) ≤ 3 ∧ (0:ℚ) ≤ 1 ∧ (0:ℚ) ≤ (Project.mk 3 0 1).discount_rate) ∧
    (remainingLife (Project.mk 3 0 1) 2
        = 2 * (1 + (replacementsNumber (Project.mk 3 0 1) 2 : ℚ)) - ((3:ℕ) : ℚ)
      ∧ (CostFactors.from_prices (Project.mk 3 0 1) 1 2 5 2 3 0 0 0).map CostFactors.salvage
          = .ok (-(3 * remainingLife (Project.mk 3 0 1) 2 / 2) * 1
              * (discountFactors (Project.mk 3 0 1)).getD ((3:ℕ) - 1) 0)
      ∧ -(3 * remainingLife (Project.mk 3 0 1) 2 / 2) * 1
          * (discountFactors (Project.mk 3 0 1)).getD ((3:ℕ) - 1) 0 ≤ 0) :=
  ⟨⟨by norm_num, by norm_num, by norm_num, by norm_num⟩,
    from_prices_salvage (Project.mk 3 0 1) 1 2 5 2 3 0 0 0
      (by norm_num) (by norm_num) (by norm_num) (by norm_num)⟩

/-- C5 counterexample: at project lifetime 3 years, zero discount rate,
component lifetime 2 years, quantity 1, replacement price 2 and salvage
price 3, the computed salvage is `-3/2` (built from the salvage price),
whereas the claimed formula with the *replacement* price gives `-1`. -/
theorem from_prices_salvage_counterexample :
    (CostFactors.from_prices (Project.mk 3 0 1) 1 2 5 2 3 0 0 0).map CostFactors.salvage
        = .ok (-(3/2))
    ∧ -(2 * remainingLife (Project.mk 3 0 1) 2 / 2) * 1
        * (discountFactors (Project.mk 3 0 1)).getD ((3:ℕ) - 1) 0 = -1
    ∧ ((-(3/2) : ℚ) ≠ -1) := by
  have hceil : ⌈(((Project.mk 3 0 1).lifetime : ℕ) : ℚ) / 2⌉ = 2 := by
    rw [Int.ceil_eq_iff]
    norm_num
  have hrem : remainingLife (Project.mk 3 0 1) 2 = 1 := by
    unfold remainingLife replacementsNumber
    rw [hceil]
    norm_num
  have hdf : (discountFactors (Project.mk 3 0 1)).getD ((3:ℕ) - 1) 0 = 1 := by
    rw [discountFactors_getD]
    norm_num
  refine ⟨?_, ?_, by norm_num⟩
  · rw [from_prices_ok (Project.mk 3 0 1) 1 2 5 2 3 0 0 0 (by norm_num)]
    show Except.ok (-(3 * remainingLife (Project.mk 3 0 1) 2 / 2) * 1
      * (discountFactors (Project.mk 3 0 1)).getD ((3:ℕ) - 1) 0) = _
    rw [hrem, hdf]
    norm_num
  · rw [hrem, hdf]
    norm_num

/-- C9: in exact arithmetic, when the project lifetime is a positive integer
multiple `m` of the component's (effective) lifetime,
`replacements_number = project_lifetime/component_lifetime - 1` exactly, the
remaining life at project end is exactly zero, and the salvage cost of
`CostFactors.from_prices` is exactly zero. -/
theorem from_prices_exact_multiple (proj : Project) (lt : ℚ) (m : ℕ)
    (q ip rp sp op fc fp : ℚ)
    (hm : 1 ≤ m) (hlt : 0 < lt) (hL : (proj.lifetime : ℚ) = m * lt) :
    (replacementsNumber proj lt : ℚ) = (proj.lifetime : ℚ) / lt - 1
    ∧ remainingLife proj lt = 0
    ∧ (CostFactors.from_prices proj q lt ip rp sp op fc fp).map CostFactors.salvage
        = .ok 0 := by
  have hne : lt ≠ 0 := ne_of_gt hlt
  have hdiv : (proj.lifetime : ℚ) / lt = (m : ℚ) := by
    rw [hL]
    field_simp
  have hceil : ⌈(proj.lifetime : ℚ) / lt⌉ = (m : ℤ) := by
    rw [hdiv]
    exact_mod_cast Int.ceil_natCast m
  have hrn : replacementsNumber proj lt = (m : ℤ) - 1 := by
    unfold replacementsNumber
    rw [hceil]
  have hrem : remainingLife proj lt = 0 := by
    unfold remainingLife
    rw [hrn, hL]
    push_cast
    ring
  refine ⟨?_, hrem, ?_⟩
  · rw [hrn, hdiv]
    push_cast
    ring
  · rw [from_prices_ok proj q lt ip rp sp op fc fp hne]
    show Except.ok (-(sp * remainingLife proj lt / lt) * q
      * (discountFactors proj).getD (proj.lifetime - 1) 0) = _
    rw [hrem]
    norm_num

/-- Witness for `from_prices_exact_multiple` at a concrete input. -/
theorem from_prices_exact_multiple_witness :
    (1 ≤ 2 ∧ (0:ℚ) < 5 ∧ (((Project.mk 10 0 1).lifetime : ℚ) = (2:ℕ) * 5)) ∧
    ((replacementsNumber (Project.mk 10 0 1) 5 : ℚ)
        = (((Project.mk 10 0 1).lifetime : ℕ) : ℚ) / 5 - 1
      ∧ remainingLife (Project.mk 10 0 1) 5 = 0
      ∧ (CostFactors.from_prices (Project.mk 10 0 1) 7 5 11 13 17 19 23 29).map
          CostFactors.salvage = .ok 0) :=
  ⟨⟨by norm_num, by norm_num, by norm_num⟩,
    from_prices_exact_multiple (Project.mk 10 0 1) 5 2 7 11 13 17 19 23 29
      (by norm_num) (by norm_num) (by norm_num)⟩

/-! ### Projections of `sim_operation` and loop invariants (C3, C4, C6) -/

/-- `served_energy` after the loop: desired load energy minus shed energy. -/
theorem sim_operation_served_energy (mg : Microgrid) :
    (sim_operation mg).served_energy
      = mg.load.sum * mg.project.timestep - (simLoop mg).shed_energy := rfl

/-- `shed_rate` after the loop, with its zero-denominator guard. -/
theorem sim_operation_shed_rate (mg : Microgrid) :
    (sim_operation mg).shed_rate
      = if mg.load.sum * mg.project.timestep ≠ 0 then
          XQ.fin ((simLoop mg).shed_energy / (mg.load.sum * mg.project.timestep))
        else XQ.inf := rfl

/-- `storage_cycles` after the loop, with its zero-denominator guard. -/
theorem sim_operation_storage_cycles (mg : Microgrid) :
    (sim_operation mg).storage_cycles
      = if mg.storage.energy_rated ≠ 0 then
          XQ.fin (((simLoop mg).storage_char_energy + (simLoop mg).storage_dis_energy)
            / (2 * mg.storage.energy_rated))
        else XQ.inf := rfl

/-- `renew_potential_energy` after the loop. -/
theorem sim_operation_renew_potential_energy (mg : Microgrid) :
    (sim_operation mg).renew_potential_energy
      = ((List.range mg.load.length).map (renewPotential mg)).sum := rfl

/-- `spilled_rate` after the loop, with its zero-denominator guard. -/
theorem sim_operation_spilled_rate (mg : Microgrid) :
    (sim_operation mg).spilled_rate
      = if ((List.range mg.load.length).map (renewPotential mg)).sum ≠ 0 then
          XQ.fin ((simLoop mg).spilled_energy
            / ((List.range mg.load.length).map (renewPotential mg)).sum)
        else XQ.inf := rfl

/-- `renew_rate` after the loop, with its zero-denominator guard. -/
theorem sim_operation_renew_rate (mg : Microgrid) :
    (sim_operation mg).renew_rate
      = if mg.load.sum * mg.project.timestep - (simLoop mg).shed_energy ≠ 0 then
          XQ.fin (1 - (simLoop mg).gen_energy
            / (mg.load.sum * mg.project.timestep - (simLoop mg).shed_energy))
        else XQ.inf := rfl

/-- The generator-hour statistic just passes through the aggregation. -/
theorem sim_operation_gen_hours (mg : Microgrid) :
    (sim_operation mg).gen_hours = (simLoop mg).gen_hours := rfl

/-- A predicate preserved by each step holds at the end of the fold. -/
theorem foldl_inv {α β : Type} (f : β → α → β) (P : β → Prop)
    (hf : ∀ s a, P s → P (f s a)) :
    ∀ (l : List α) (s : β), P s → P (l.foldl f s) := by
  intro l
  induction l with
  | nil => intro s hs; exact hs
  | cons a t ih =>
    intro s hs
    rw [List.foldl_cons]
    exact ih (f s a) (hf s a hs)

/-- Generator-hours update of one simulation step. -/
theorem simStep_gen_hours (mg : Microgrid) (p : ℚ) (s : OpState) :
    (simStep mg p s).gen_hours
      = if 0 < (dispatchAt mg s.Esto p).1 then s.gen_hours + mg.project.timestep
        else s.gen_hours := rfl

/-- With a zero-rated generator, the dispatched generator power is zero. -/
theorem dispatchAt_Pgen_zero (mg : Microgrid) (e p : ℚ)
    (h : mg.generator.power_rated = 0) : (dispatchAt mg e p).1 = 0 := by
  rw [dispatchAt_eq, h]
  exact dispatch_Pgen_zero _ _ _

/-- With a zero-rated generator, the simulated operating hours are zero. -/
theorem simLoop_gen_hours_zero (mg : Microgrid)
    (h : mg.generator.power_rated = 0) : (simLoop mg).gen_hours = 0 := by
  unfold simLoop
  exact foldl_inv (fun s p => simStep mg p s) (fun s => s.gen_hours = 0)
    (fun s p hp => by
      show (simStep mg p s).gen_hours = 0
      rw [simStep_gen_hours, dispatchAt_Pgen_zero mg s.Esto p h,
        if_neg (lt_irrefl 0)]
      exact hp)
    (requests mg) (initState mg) rfl

/-- `Battery.lifetime` at `cycles = +inf` (the zero-rated-energy case) is
`min(lifetime_calendar, 0) = 0` for a non-negative calendar lifetime, *not*
the calendar lifetime. -/
theorem battery_lifetime_inf (b : Battery) (h : 0 ≤ b.lifetime_calendar) :
    b.lifetime XQ.inf = 0 := by
  simp [Battery.lifetime, XQ.gtZero, XQ.divQ, min_eq_right h]

/-- `CostFactors.from_prices` raises on a zero component lifetime. -/
theorem from_prices_zero_lifetime (proj : Project) (q ip rp sp op fc fp : ℚ) :
    CostFactors.from_prices proj q 0 ip rp sp op fc fp
      = .error .overflowError := by
  unfold CostFactors.from_prices
  rw [if_pos rfl]

/-- A component of zero quantity (and no fuel) yields an all-zero
`CostFactors`, provided its lifetime is non-zero. -/
theorem from_prices_quantity_zero (proj : Project) (lt ip rp sp op : ℚ)
    (h : lt ≠ 0) :
    CostFactors.from_prices proj 0 lt ip rp sp op 0 0
      = .ok ({} : CostFactors) := by
  rw [from_prices_ok proj 0 lt ip rp sp op 0 0 h]
  simp

/-- The sum of the project discount factors is positive for a non-negative
discount rate and a project of at least one year. -/
theorem discountFactors_sum_pos (proj : Project)
    (hr : 0 ≤ proj.discount_rate) (hL : 1 ≤ proj.lifetime) :
    0 < (discountFactors proj).sum := by
  apply List.sum_pos
  · intro x hx
    obtain ⟨i, hi, rfl⟩ := List.mem_map.mp hx
    exact div_pos one_pos (pow_pos (by linarith) _)
  · unfold discountFactors
    simp only [ne_eq, List.map_eq_nil_iff, List.range_eq_nil]
    omega

/-- C3 (amended): the four guarded rate computations of `sim_operation`
return `+inf` on a zero denominator (shed rate at zero desired load energy,
spilled rate at zero renewable potential, cycle count at zero rated storage
energy, renewable rate at zero served energy); and when `sim_economics`
*completes*, a zero served energy makes `lcoe = +inf` provided the net
present cost is positive (IEEE division; `sim_economics` is *not* guarded:
with zero generator hours it raises before reaching the division). -/
theorem degenerate_rates_policy :
    (∀ mg : Microgrid, mg.load.sum * mg.project.timestep = 0 →
        (sim_operation mg).shed_rate = XQ.inf) ∧
    (∀ mg : Microgrid, (sim_operation mg).renew_potential_energy = 0 →
        (sim_operation mg).spilled_rate = XQ.inf) ∧
    (∀ mg : Microgrid, mg.storage.energy_rated = 0 →
        (sim_operation mg).storage_cycles = XQ.inf) ∧
    (∀ mg : Microgrid, (sim_operation mg).served_energy = 0 →
        (sim_operation mg).renew_rate = XQ.inf) ∧
    (∀ (mg : Microgrid) (st : OperationStats) (mc : MicrogridCosts),
        sim_economics mg st = .ok mc → st.served_energy = 0 → 0 < mc.npc →
        0 ≤ mg.project.discount_rate → 1 ≤ mg.project.lifetime →
        mc.lcoe = XR.inf) := by
  refine ⟨?_, ?_, ?_, ?_, ?_⟩
  · intro mg h
    rw [sim_operation_shed_rate, if_neg (by simp [h])]
  · intro mg h
    rw [sim_operation_renew_potential_energy] at h
    rw [sim_operation_spilled_rate, if_neg (by simp [h])]
  · intro mg h
    rw [sim_operation_storage_cycles, if_neg (by simp [h])]
  · intro mg h
    rw [sim_operation_served_energy] at h
    rw [sim_operation_renew_rate, if_neg (by simp [h])]
  · intro mg st mc h hserved hnpc hr hL
    unfold sim_economics at h
    split at h
    · simp at h
    · split at h
      · simp at h
      · split at h
        · simp at h
        · split at h
          · simp at h
          · simp only [Except.ok.injEq] at h
            subst h
            dsimp only at hnpc ⊢
            have hb : ((st.served_energy : ℚ) : ℝ) = 0 := by
              rw [hserved]
              exact Rat.cast_zero
            have hsum : (0:ℚ) < (discountFactors mg.project).sum :=
              discountFactors_sum_pos mg.project hr hL
            have hcrf : (0:ℝ) < ((1 / (discountFactors mg.project).sum : ℚ) : ℝ) := by
              rw [Rat.cast_pos]
              positivity
            unfold npDivR
            rw [if_pos hb, if_pos (mul_pos hnpc hcrf)]

/-- Shed-energy update of one simulation step. -/
theorem simStep_shed_energy (mg : Microgrid) (p : ℚ) (s : OpState) :
    (simStep mg p s).shed_energy
      = s.shed_energy + (dispatchAt mg s.Esto p).2.2.2 * mg.project.timestep := rfl

/-- The net-load request sequence of `mgZ` is a single zero. -/
theorem requests_mgZ : requests mgZ = [0] := by
  simp [requests, mgZ, PnlRequest, renewPotential, List.range_succ]

/-- The single zero-load instant of `mgZ` sheds nothing. -/
theorem simLoop_mgZ_shed : (simLoop mgZ).shed_energy = 0 := by
  rw [simLoop, requests_mgZ, List.foldl_cons, List.foldl_nil, simStep_shed_energy,
    dispatchAt_eq]
  norm_num [mgZ, initState, dispatch]

/-- C3 counterexample: on the zero-load microgrid `mgZ`, the served energy is
zero, yet `sim_economics` does not return `lcoe = +inf`: it raises
`ZeroDivisionError` (in the generator-lifetime computation, since the
generator never ran) before the levelized-cost division is reached. -/
theorem lcoe_not_guarded_counterexample :
    (sim_operation mgZ).served_energy = 0
    ∧ sim_economics mgZ (sim_operation mgZ) = .error PyError.zeroDivisionError := by
  have hserved : (sim_operation mgZ).served_energy = 0 := by
    rw [sim_operation_served_energy, simLoop_mgZ_shed]
    norm_num [mgZ]
  refine ⟨hserved, ?_⟩
  have hg : (sim_operation mgZ).gen_hours = 0 := by
    rw [sim_operation_gen_hours]
    exact simLoop_gen_hours_zero mgZ rfl
  unfold sim_economics
  rw [hg]
  simp [DispatchableGenerator.lifetime]

/-- `sim_economics` completes on `mgC3e` with `stC3` and returns `mcC3`
(unit net present cost, infinite levelized cost). -/
theorem sim_economics_mgC3e : sim_economics mgC3e stC3 = Except.ok mcC3 := by
  simp [sim_economics, mgC3e, stC3, mcC3, DispatchableGenerator.lifetime,
    Battery.lifetime, XQ.gtZero, CostFactors.from_prices, replacementsNumber,
    remainingLife, discountFactors, List.range_succ, CostFactors.add, npDivR,
    List.mapM.loop, pure, Except.pure]

/-- Witness for `degenerate_rates_policy` at concrete inputs. -/
theorem degenerate_rates_policy_witness :
    (mgZ.load.sum * mgZ.project.timestep = 0 ∧ (sim_operation mgZ).shed_rate = XQ.inf) ∧
    ((sim_operation mgZ).renew_potential_energy = 0
      ∧ (sim_operation mgZ).spilled_rate = XQ.inf) ∧
    (mgZ.storage.energy_rated = 0 ∧ (sim_operation mgZ).storage_cycles = XQ.inf) ∧
    ((sim_operation mgZ).served_energy = 0 ∧ (sim_operation mgZ).renew_rate = XQ.inf) ∧
    (sim_economics mgC3e stC3 = Except.ok mcC3 ∧ stC3.served_energy = 0
      ∧ 0 < mcC3.npc ∧ 0 ≤ mgC3e.project.discount_rate
      ∧ 1 ≤ mgC3e.project.lifetime ∧ mcC3.lcoe = XR.inf) := by
  have h1 : mgZ.load.sum * mgZ.project.timestep = 0 := by norm_num [mgZ]
  have h2 : (sim_operation mgZ).renew_potential_energy = 0 := by
    rw [sim_operation_renew_potential_energy]
    simp [mgZ, renewPotential, List.range_succ]
  have h3 : mgZ.storage.energy_rated = 0 := rfl
  have h4 : (sim_operation mgZ).served_energy = 0 := by
    rw [sim_operation_served_energy, simLoop_mgZ_shed]
    norm_num [mgZ]
  have h5 : stC3.served_energy = 0 := rfl
  have h6 : 0 < mcC3.npc := by norm_num [mcC3]
  exact ⟨⟨h1, degenerate_rates_policy.1 mgZ h1⟩,
    ⟨h2, degenerate_rates_policy.2.1 mgZ h2⟩,
    ⟨h3, degenerate_rates_policy.2.2.1 mgZ h3⟩,
    ⟨h4, degenerate_rates_policy.2.2.2.1 mgZ h4⟩,
    ⟨sim_economics_mgC3e, h5, h6, by norm_num [mgC3e], by norm_num [mgC3e],
      degenerate_rates_policy.2.2.2.2 mgC3e stC3 mcC3 sim_economics_mgC3e h5 h6
        (by norm_num [mgC3e]) (by norm_num [mgC3e])⟩⟩

/-- C4 (amended): a *non-dispatchable* component of zero quantity still
yields an all-zero `CostFactors` entry; but `sim_economics` raises for the
other two zero-quantity components: a zero-rated generator never runs, so
the generator-lifetime computation divides by zero (`ZeroDivisionError`);
and a zero-rated storage (with positive calendar lifetime) has `+inf`
observed cycles, hence effective lifetime `min(calendar, 0) = 0`, so the
replacement-count computation raises. -/
theorem zero_quantity_components :
    (∀ (proj : Project) (lt ip rp sp op : ℚ), lt ≠ 0 →
        CostFactors.from_prices proj 0 lt ip rp sp op 0 0 = .ok ({} : CostFactors)) ∧
    (∀ mg : Microgrid, mg.generator.power_rated = 0 →
        sim_economics mg (sim_operation mg) = .error PyError.zeroDivisionError) ∧
    (∀ mg : Microgrid, mg.storage.energy_rated = 0 →
        0 < mg.storage.lifetime_calendar →
        ∃ e, sim_economics mg (sim_operation mg) = .error e) := by
  refine ⟨fun proj lt ip rp sp op h => from_prices_quantity_zero proj lt ip rp sp op h,
    ?_, ?_⟩
  · intro mg h
    have hg : (sim_operation mg).gen_hours = 0 := by
      rw [sim_operation_gen_hours]
      exact simLoop_gen_hours_zero mg h
    unfold sim_economics
    rw [hg]
    simp [DispatchableGenerator.lifetime]
  · intro mg h hcal
    have hcyc : (sim_operation mg).storage_cycles = XQ.inf := by
      rw [sim_operation_storage_cycles, if_neg (by simp [h])]
    have hlt0 : mg.storage.lifetime ((sim_operation mg).storage_cycles) = 0 := by
      rw [hcyc]
      exact battery_lifetime_inf mg.storage hcal.le
    unfold sim_economics
    simp only [hlt0, from_prices_zero_lifetime]
    rcases hge : mg.generator.lifetime (sim_operation mg).gen_hours with e | glt
    · exact ⟨e, rfl⟩
    · rcases hfg : CostFactors.from_prices mg.project mg.generator.power_rated glt
          mg.generator.investment_price
          (mg.generator.investment_price * mg.generator.replacement_price_ratio)
          (mg.generator.investment_price * mg.generator.salvage_price_ratio)
          (mg.generator.om_price_hours * (sim_operation mg).gen_hours)
          (sim_operation mg).gen_fuel mg.generator.fuel_price with e2 | gc
      · exact ⟨e2, by simp only [hfg]⟩
      · exact ⟨.overflowError, by simp only [hfg]⟩

/-- C4 counterexample: `mgC4` prices its generator (100 $/kW investment) but
rates it at zero; `sim_economics` on its own simulated statistics raises
`ZeroDivisionError` instead of returning a zero-valued `CostFactors`. -/
theorem zero_quantity_generator_counterexample :
    mgC4.generator.power_rated = 0
    ∧ sim_economics mgC4 (sim_operation mgC4) = .error PyError.zeroDivisionError := by
  refine ⟨rfl, ?_⟩
  have hg : (sim_operation mgC4).gen_hours = 0 := by
    rw [sim_operation_gen_hours]
    exact simLoop_gen_hours_zero mgC4 rfl
  unfold sim_economics
  rw [hg]
  simp [DispatchableGenerator.lifetime]

/-- Witness for `zero_quantity_components` at concrete inputs. -/
theorem zero_quantity_components_witness :
    ((2:ℚ) ≠ 0 ∧ CostFactors.from_prices (Project.mk 25 (1/20) 1) 0 2 100 100 100 5 0 0
        = .ok ({} : CostFactors)) ∧
    (mgZ.generator.power_rated = 0
      ∧ sim_economics mgZ (sim_operation mgZ) = .error PyError.zeroDivisionError) ∧
    (mgC6.storage.energy_rated = 0 ∧ 0 < mgC6.storage.lifetime_calendar
      ∧ ∃ e, sim_economics mgC6 (sim_operation mgC6) = .error e) :=
  ⟨⟨by norm_num, zero_quantity_components.1 (Project.mk 25 (1/20) 1) 2 100 100 100 5
      (by norm_num)⟩,
    ⟨rfl, zero_quantity_components.2.1 mgZ rfl⟩,
    ⟨rfl, by norm_num [mgC6],
      zero_quantity_components.2.2 mgC6 rfl (by norm_num [mgC6])⟩⟩

/-- C6: on `mgC6` (zero-capacity storage, 10-year calendar lifetime), the
observed cycle count is `+inf` and the effective storage lifetime used by
the economic evaluator is `min(10, 3000/inf) = 0`, not the calendar
lifetime 10 that the specification prescribes. -/
theorem battery_lifetime_zero_capacity :
    (sim_operation mgC6).storage_cycles = XQ.inf
    ∧ mgC6.storage.lifetime ((sim_operation mgC6).storage_cycles) = 0
    ∧ mgC6.storage.lifetime_calendar = 10
    ∧ ((0:ℚ) ≠ 10) := by
  have h1 : (sim_operation mgC6).storage_cycles = XQ.inf := by
    rw [sim_operation_storage_cycles, if_neg (by norm_num [mgC6])]
  refine ⟨h1, ?_, rfl, by norm_num⟩
  rw [h1]
  exact battery_lifetime_inf mgC6.storage (by norm_num [mgC6])

/-- The net-load request sequence of `mgC7` is a single unit load. -/
theorem requests_mgC7 : requests mgC7 = [1] := by
  simp [requests, mgC7, PnlRequest, renewPotential, List.range_succ]

/-- Dispatch at the initial state of `mgC7`: the storage discharges at its
energy-limited maximum `1/2`, the rest of the load is shed. -/
theorem dispatchAt_mgC7 :
    dispatchAt mgC7 (initState mgC7).Esto 1 = (0, 1/2, 0, 1/2) := by
  rw [dispatchAt_eq]
  norm_num [mgC7, initState, dispatch, min_def, max_def]

/-- The storage of `mgC7` ends its single step at energy `1/2`. -/
theorem simLoop_mgC7_Esto : (simLoop mgC7).Esto = 1/2 := by
  rw [simLoop, requests_mgC7, List.foldl_cons, List.foldl_nil, simStep_Esto,
    dispatchAt_mgC7]
  norm_num [mgC7, initState]

/-- C7: on `mgC7` (one instant, storage starting full at energy 1, ending at
1/2), the recorder's `Esto` array comes back as `[1/2, 0]`: the post-loop
`recorder.rec(K-1, Esto=Esto)` overwrites the pre-update sample at index
`K-1 = 0` with the final energy, and the declared `(K+1)`-th slot at index
`K = 1` is never written (it keeps its initial zero) — instead of the
`[Esto_ini, Esto_final] = [1, 1/2]` bracketing that the specification (and
the source's own `Esto=K+1` declaration and `# Esto at last instant`
comment) prescribe. -/
theorem recorder_esto_index_bug :
    (sim_operation_rec mgC7).2.Esto = [1/2, 0]
    ∧ mgC7.storage.SoC_ini * mgC7.storage.energy_rated = 1
    ∧ (simLoop mgC7).Esto = 1/2 := by
  have hp : PnlRequest mgC7 0 = 1 := by
    simp [PnlRequest, mgC7, renewPotential]
  have hE : (sim_operation_rec mgC7).2.Esto
      = ((TrajRecorder.init 1).Esto.set 0 (initState mgC7).Esto).set 0
          (simStep mgC7 (PnlRequest mgC7 0) (initState mgC7)).Esto := rfl
  have hstep : (simStep mgC7 1 (initState mgC7)).Esto = 1/2 := by
    rw [simStep_Esto, dispatchAt_mgC7]
    norm_num [mgC7, initState]
  have hinit : (initState mgC7).Esto = 1 := by norm_num [initState, mgC7]
  refine ⟨?_, by norm_num [mgC7], simLoop_mgC7_Esto⟩
  rw [hE, hp, hstep, hinit]
  simp [TrajRecorder.init]

/-- The storage-energy trajectory of `mgC7`: full at instant 0, half full at
instant 1 (K+1 = 2 samples for K = 1 interval). -/
theorem EstoTrajectory_mgC7 : EstoTrajectory mgC7 = [1, 1/2] := by
  unfold EstoTrajectory
  rw [requests_mgC7, List.scanl_cons, List.scanl_nil]
  have hstep : (simStep mgC7 1 (initState mgC7)).Esto = 1/2 := by
    rw [simStep_Esto, dispatchAt_mgC7]
    norm_num [mgC7, initState]
  have hinit : (initState mgC7).Esto = 1 := by norm_num [initState, mgC7]
  simp [hstep, hinit]

/-- Witness for `sim_operation_storage_invariant` at a concrete microgrid
and a concrete trajectory sample. -/
theorem sim_operation_storage_invariant_witness :
    (0 ≤ mgC7.storage.SoC_min ∧ mgC7.storage.SoC_min ≤ mgC7.storage.SoC_ini
      ∧ mgC7.storage.SoC_ini ≤ 1 ∧ 0 ≤ mgC7.storage.loss_factor
      ∧ mgC7.storage.loss_factor < 1 ∧ 0 ≤ mgC7.storage.energy_rated
      ∧ 0 ≤ mgC7.storage.charge_rate_max ∧ 0 ≤ mgC7.storage.discharge_rate_max
      ∧ 0 < mgC7.project.timestep ∧ (1:ℚ)/2 ∈ EstoTrajectory mgC7)
    ∧ (mgC7.storage.SoC_min * mgC7.storage.energy_rated ≤ 1/2
      ∧ (1:ℚ)/2 ≤ mgC7.storage.energy_rated) := by
  have hmem : (1:ℚ)/2 ∈ EstoTrajectory mgC7 := by
    rw [EstoTrajectory_mgC7]
    simp
  refine ⟨⟨by norm_num [mgC7], by norm_num [mgC7], by norm_num [mgC7],
    by norm_num [mgC7], by norm_num [mgC7], by norm_num [mgC7],
    by norm_num [mgC7], by norm_num [mgC7], by norm_num [mgC7], hmem⟩, ?_⟩
  exact sim_operation_storage_invariant mgC7 (by norm_num [mgC7])
    (by norm_num [mgC7]) (by norm_num [mgC7]) (by norm_num [mgC7])
    (by norm_num [mgC7]) (by norm_num [mgC7]) (by norm_num [mgC7])
    (by norm_num [mgC7]) (by norm_num [mgC7]) (1/2) hmem
